/-
  Verification of the channel-opening engine (lightningd/opening/opening.c)
  against its natural-language specification.

  The engine is shallowly embedded: machine integers are `Nat` with explicit
  reduction `% 2^64` wherever the C code's u64 arithmetic may wrap; the
  process's three I/O endpoints are modelled by an explicit environment
  (the sequence of reads the engine would perform) and an explicit trace of
  emitted events; fatal exits (`peer_failed`, `status_failed`) become
  terminal results carrying the status code and the particular call site
  (one `fail_reason` per distinct `peer_failed`/`status_failed` call in the
  source).  External collaborators that are not part of this subsystem
  (secp256k1, transaction building, `new_channel`, `channel_tx`) are opaque
  function parameters gathered in `ext_funs`.
-/
import Mathlib

namespace Opening

/-! ## Machine arithmetic -/

/-- `2^64`, the modulus of the C code's `u64` arithmetic. -/
def U64MOD : Nat := 2 ^ 64

/-- u64 multiplication: wraps modulo `2^64`. -/
def u64mul (a b : Nat) : Nat := a * b % U64MOD

/-- u64 addition: wraps modulo `2^64`. -/
def u64add (a b : Nat) : Nat := (a + b) % U64MOD

/-- u64 subtraction: wraps modulo `2^64` (for `a b < 2^64`). -/
def u64sub (a b : Nat) : Nat := (a + U64MOD - b) % U64MOD

/-! ## Data model -/

/-- `struct channel_config` (one per side).  Field widths from the source:
`u64` amounts, `u32` `htlc_minimum_msat` and `minimum_depth`, `u16`
`to_self_delay` and `max_accepted_htlcs`; widths are imposed as hypotheses
where a claim needs them. -/
structure channel_config where
  dust_limit_satoshis : Nat
  max_htlc_value_in_flight_msat : Nat
  channel_reserve_satoshis : Nat
  htlc_minimum_msat : Nat
  to_self_delay : Nat
  max_accepted_htlcs : Nat
  minimum_depth : Nat
deriving DecidableEq, Repr

/-- The two sides of the channel (`enum side`, `NUM_SIDES = 2`). -/
inductive side where
  | LOCAL
  | REMOTE
deriving DecidableEq, Repr

/-- `struct channel_id`: 32 raw bytes; `structeq` compares them all. -/
abbrev channel_id := List Nat

/-- The funder's temporary channel id: `memset(&tmpid, 0xFF, sizeof(tmpid))`. -/
def tmpid_ff : channel_id := List.replicate 32 255

/-- `struct points`: the four public keys derived from the seed. -/
structure points (PK : Type) where
  funding_pubkey : PK
  revocation_basepoint : PK
  payment_basepoint : PK
  delayed_payment_basepoint : PK
deriving DecidableEq, Repr

/-! ## Failure taxonomy -/

/-- Status codes the engine can die with (spec §7 / gen_opening_status_wire). -/
inductive status_code where
  | PEER_BAD_INITIAL_MESSAGE
  | PEER_BAD_FUNDING
  | PEER_BAD_CONFIG
  | PEER_READ_FAILED
  | PEER_WRITE_FAILED
  | BAD_PARAM
  | BAD_COMMAND
  | KEY_DERIVATION_FAILED
deriving DecidableEq, Repr

/-- The individual checks of `check_config_bounds`, one per `peer_failed`
call site in that function, in source order. -/
inductive config_err where
  | bad_to_self_delay
  | bad_channel_reserve
  | bad_htlc_minimum
  | low_capacity
  | zero_max_accepted_htlcs
  | big_max_accepted_htlcs
deriving DecidableEq, Repr

/-- Every failure in `check_config_bounds` uses `WIRE_OPENING_PEER_BAD_CONFIG`. -/
def config_err_code : config_err → status_code := fun _ => .PEER_BAD_CONFIG

/-- One constructor per distinct `peer_failed` call site of
`open_channel`/`recv_channel`, identified by its format string. -/
inductive fail_reason where
  | bad_funding_satoshis
  | bad_push_msat
  | write_open_channel
  | read_accept_channel
  | accept_ids_mismatch
  | bad_minimum_depth
  | config : config_err → fail_reason
  | parse_accept_channel
  | parse_funding_signed
  | parse_funding_created
  | bad_open_funding
  | create_channel_failed
  | write_funding_created
  | read_funding_signed
  | funding_signed_ids_mismatch
  | bad_signature
  | parse_open_channel
  | fundee_bad_funding_satoshis
  | fundee_bad_push_msat
  | feerate_too_small
  | feerate_too_large
  | write_accept_channel
  | read_funding_created
  | funding_created_ids_mismatch
  | fundee_bad_signature
  | fundee_create_channel_failed
  | write_funding_signed
deriving DecidableEq, Repr

/-! ## Parameter validator -/

/-- The reserve accumulation of `check_config_bounds` (lines 164-167):
`reserve_msat = remoteconf->channel_reserve_satoshis * 1000`, replaced by
`localconf.channel_reserve_satoshis * 1000` when the latter is larger;
u64 arithmetic. -/
def reserve_msat_u64 (lc_reserve : Nat) (remoteconf : channel_config) : Nat :=
  let r := u64mul remoteconf.channel_reserve_satoshis 1000
  if u64mul lc_reserve 1000 > r then u64mul lc_reserve 1000 else r

/-- The capacity computation of `check_config_bounds` (lines 169-172):
`capacity_msat = funding_satoshis * 1000 - reserve_msat`, clamped above by
`remoteconf->max_htlc_value_in_flight_msat`; u64 arithmetic. -/
def capacity_msat_u64 (funding_satoshis lc_reserve : Nat)
    (remoteconf : channel_config) : Nat :=
  let c := u64sub (u64mul funding_satoshis 1000)
                  (reserve_msat_u64 lc_reserve remoteconf)
  if remoteconf.max_htlc_value_in_flight_msat < c then
    remoteconf.max_htlc_value_in_flight_msat
  else c

/-- `check_config_bounds` (opening.c lines 127-215).  Returns the first
check that fails (each `peer_failed` exits the process), or `none` when the
remote config is accepted. -/
def check_config_bounds (funding_satoshis : Nat) (localconf : channel_config)
    (max_to_self_delay min_effective_htlc_capacity_msat : Nat)
    (remoteconf : channel_config) : Option config_err :=
  if remoteconf.to_self_delay > max_to_self_delay then
    some .bad_to_self_delay
  else if remoteconf.channel_reserve_satoshis > funding_satoshis then
    some .bad_channel_reserve
  else
    let capacity_msat :=
      capacity_msat_u64 funding_satoshis localconf.channel_reserve_satoshis
        remoteconf
    if u64mul remoteconf.htlc_minimum_msat 1000 > capacity_msat then
      some .bad_htlc_minimum
    else if capacity_msat < min_effective_htlc_capacity_msat then
      some .low_capacity
    else if remoteconf.max_accepted_htlcs = 0 then
      some .zero_max_accepted_htlcs
    else if remoteconf.max_accepted_htlcs > 511 then
      some .big_max_accepted_htlcs
    else
      none

/-- `set_reserve` (opening.c lines 253-257): `*reserve = (funding + 99) / 100`
in u64 arithmetic. -/
def set_reserve (funding : Nat) : Nat := u64add funding 99 / 100

/-- Spec-side capacity (spec §4.2 steps 3-4), written with exact
mathematical arithmetic for comparison with `capacity_msat_u64`:
`min(funding_satoshis × 1000 − max(reserves) × 1000,
     remoteconf.max_htlc_value_in_flight_msat)`. -/
def capacity_msat_spec (funding_satoshis lc_reserve : Nat)
    (remoteconf : channel_config) : Nat :=
  min (funding_satoshis * 1000 -
        max remoteconf.channel_reserve_satoshis lc_reserve * 1000)
      remoteconf.max_htlc_value_in_flight_msat

/-! ## Wire messages

One structure per BOLT-2 message the engine sends or receives, with the
fields in the order of the corresponding `towire_*`/`fromwire_*` call in
the source. -/

/-- Fields of `open_channel` as (de)serialized by
`towire_open_channel`/`fromwire_open_channel` (no `chain_hash` in this
engine's framing). -/
structure open_channel_msg (PK : Type) where
  temporary_channel_id : channel_id
  funding_satoshis : Nat
  push_msat : Nat
  dust_limit_satoshis : Nat
  max_htlc_value_in_flight_msat : Nat
  channel_reserve_satoshis : Nat
  htlc_minimum_msat : Nat
  feerate_per_kw : Nat
  to_self_delay : Nat
  max_accepted_htlcs : Nat
  funding_pubkey : PK
  revocation_basepoint : PK
  payment_basepoint : PK
  delayed_payment_basepoint : PK
  first_per_commitment_point : PK
deriving DecidableEq, Repr

/-- Fields of `accept_channel` as (de)serialized by
`towire_accept_channel`/`fromwire_accept_channel`. -/
structure accept_channel_msg (PK : Type) where
  temporary_channel_id : channel_id
  dust_limit_satoshis : Nat
  max_htlc_value_in_flight_msat : Nat
  channel_reserve_satoshis : Nat
  minimum_depth : Nat
  htlc_minimum_msat : Nat
  to_self_delay : Nat
  max_accepted_htlcs : Nat
  funding_pubkey : PK
  revocation_basepoint : PK
  payment_basepoint : PK
  delayed_payment_basepoint : PK
  first_per_commitment_point : PK
deriving DecidableEq, Repr

/-- Fields of `funding_created`. -/
structure funding_created_msg (SIG TXID : Type) where
  temporary_channel_id : channel_id
  funding_txid : TXID
  funding_output_index : Nat
  signature : SIG
deriving DecidableEq, Repr

/-- Fields of `funding_signed` (its 32-byte id equals the temporary id at
this phase). -/
structure funding_signed_msg (SIG : Type) where
  channel_id : channel_id
  signature : SIG
deriving DecidableEq, Repr

/-- The remote config assembled by `fromwire_accept_channel` into
`state->remoteconf` (funder path). -/
def remoteconf_of_accept {PK : Type} (a : accept_channel_msg PK) :
    channel_config :=
  { dust_limit_satoshis := a.dust_limit_satoshis
    max_htlc_value_in_flight_msat := a.max_htlc_value_in_flight_msat
    channel_reserve_satoshis := a.channel_reserve_satoshis
    htlc_minimum_msat := a.htlc_minimum_msat
    to_self_delay := a.to_self_delay
    max_accepted_htlcs := a.max_accepted_htlcs
    minimum_depth := a.minimum_depth }

/-- The remote config assembled by `fromwire_open_channel` into
`state->remoteconf` (fundee path).  `open_channel` carries no
`minimum_depth`; the source leaves that field of `state->remoteconf`
unwritten and never reads it on this path, so it is pinned to 0 here. -/
def remoteconf_of_open {PK : Type} (o : open_channel_msg PK) :
    channel_config :=
  { dust_limit_satoshis := o.dust_limit_satoshis
    max_htlc_value_in_flight_msat := o.max_htlc_value_in_flight_msat
    channel_reserve_satoshis := o.channel_reserve_satoshis
    htlc_minimum_msat := o.htlc_minimum_msat
    to_self_delay := o.to_self_delay
    max_accepted_htlcs := o.max_accepted_htlcs
    minimum_depth := 0 }

/-- A successfully read-and-parsed message from the peer stream.
`other` stands for bytes that parse as none of the expected messages. -/
inductive peer_in (PK SIG TXID : Type) where
  | accept : accept_channel_msg PK → peer_in PK SIG TXID
  | funding_created : funding_created_msg SIG TXID → peer_in PK SIG TXID
  | funding_signed : funding_signed_msg SIG → peer_in PK SIG TXID
  | other : peer_in PK SIG TXID
deriving DecidableEq, Repr

/-- Terminal success payload handed to the supervisor by `status_send`:
`towire_opening_open_funding_resp` (funder) or `towire_opening_accept_resp`
(fundee), with the fields the source serializes. -/
inductive success_msg (PK SIG TXID : Type) where
  | open_funding_resp : channel_config → SIG → PK → PK → PK → PK →
      success_msg PK SIG TXID
  | accept_resp : TXID → Nat → channel_config → SIG → PK → PK → PK → PK →
      PK → success_msg PK SIG TXID
deriving DecidableEq, Repr

/-- Mid-flow status messages to the supervisor. -/
inductive status_out (PK SIG TXID : Type) where
  | open_resp : PK → PK → status_out PK SIG TXID
  | success : success_msg PK SIG TXID → status_out PK SIG TXID
deriving DecidableEq, Repr

/-- One I/O action of the engine, in the order performed. -/
inductive event (PK SIG TXID : Type) where
  | send_open : open_channel_msg PK → event PK SIG TXID
  | send_accept : accept_channel_msg PK → event PK SIG TXID
  | send_funding_created : funding_created_msg SIG TXID → event PK SIG TXID
  | send_funding_signed : funding_signed_msg SIG → event PK SIG TXID
  | recv_peer : event PK SIG TXID
  | to_status : status_out PK SIG TXID → event PK SIG TXID
  | recv_req : event PK SIG TXID
  | fdpass_peer : event PK SIG TXID
deriving DecidableEq, Repr

/-- Whether an event touches the peer stream (fd 3). -/
def event.on_peer {PK SIG TXID : Type} : event PK SIG TXID → Bool
  | .send_open _ => true
  | .send_accept _ => true
  | .send_funding_created _ => true
  | .send_funding_signed _ => true
  | .recv_peer => true
  | _ => false

/-! ## External collaborators -/

/-- The collaborators outside this subsystem, opaque to the engine:
`bitcoin_redeem_2of2` (script.h), `check_tx_sig`/`sign_tx_input`
(signature.h; our funding private key is baked into `sign_tx_input`),
`channel_tx` and `new_channel` (lightningd/channel.h). -/
structure ext_funs (PK SIG TXID TX SCRIPT CHAN : Type) where
  bitcoin_redeem_2of2 : PK → PK → SCRIPT
  check_tx_sig : TX → SCRIPT → PK → SIG → Bool
  sign_tx_input : TX → SCRIPT → SIG
  channel_tx : CHAN → PK → side → TX
  new_channel : TXID → Nat → Nat → Nat → Nat → channel_config →
    channel_config → side → Option CHAN

/-- `check_commit_sig` (opening.c lines 217-232): verify `remotesig` by
`their_funding_key` over `tx` under the 2-of-2 redeem script. -/
def check_commit_sig {PK SIG TXID TX SCRIPT CHAN : Type}
    (ext : ext_funs PK SIG TXID TX SCRIPT CHAN)
    (our_funding_key their_funding_key : PK) (tx : TX) (remotesig : SIG) :
    Bool :=
  ext.check_tx_sig tx (ext.bitcoin_redeem_2of2 our_funding_key their_funding_key)
    their_funding_key remotesig

/-- `sign_remote_commit` (opening.c lines 234-251). -/
def sign_remote_commit {PK SIG TXID TX SCRIPT CHAN : Type}
    (ext : ext_funs PK SIG TXID TX SCRIPT CHAN)
    (our_funding_key their_funding_key : PK) (tx : TX) : SIG :=
  ext.sign_tx_input tx
    (ext.bitcoin_redeem_2of2 our_funding_key their_funding_key)

/-! ## Run results and environments -/

/-- How a path run ends.  `peer_failed` models the spec §7 protocol
failure: modelled from the spec, since `peer_failed.h` is outside `src/` —
the engine emits a best-effort error frame to the peer, a status of the
given code to the supervisor, and exits nonzero; here it is a terminal
result tagged with the code and the call site. -/
inductive run_result (PK SIG TXID : Type) where
  | done : success_msg PK SIG TXID → run_result PK SIG TXID
  | peer_failed : status_code → fail_reason → run_result PK SIG TXID
deriving DecidableEq, Repr

/-- The engine-relevant fields given at init (`fromwire_opening_init`),
plus the first per-commitment point derived from the seed
(`next_per_commit[LOCAL]`). -/
structure init_state (PK : Type) where
  localconf : channel_config
  max_to_self_delay : Nat
  min_effective_htlc_capacity_msat : Nat
  next_per_commit_local : PK
deriving DecidableEq, Repr

/-- The funder path's external world: the outcome of each write and of
each read `open_channel` performs, in program order.  `none` on a read
slot is a failed `sync_crypto_read`/`wire_sync_read`. -/
structure funder_env (PK SIG TXID : Type) where
  write_open_ok : Bool
  accept_read : Option (peer_in PK SIG TXID)
  open_funding : Option (TXID × Nat)
  write_created_ok : Bool
  funding_signed_read : Option (peer_in PK SIG TXID)
deriving DecidableEq, Repr

/-- The fundee path's external world. -/
structure fundee_env (PK SIG TXID : Type) where
  write_accept_ok : Bool
  funding_created_read : Option (peer_in PK SIG TXID)
  write_signed_ok : Bool
deriving DecidableEq, Repr

/-! ## The funder state machine -/

variable {PK SIG TXID TX SCRIPT CHAN : Type}

/-- `open_channel` (opening.c lines 259-481), the funder path, as a
function of the initial state, the supervisor's `opening_open` parameters
and the environment.  Returns how the run ends together with the ordered
trace of I/O the engine performed before ending (the best-effort error
frame of `peer_failed` is part of the terminal result, not of the trace). -/
def open_channel_run (ext : ext_funs PK SIG TXID TX SCRIPT CHAN)
    (st : init_state PK) (ours : points PK)
    (funding_satoshis push_msat feerate_per_kw max_minimum_depth : Nat)
    (env : funder_env PK SIG TXID) :
    run_result PK SIG TXID × List (event PK SIG TXID) :=
  let localconf :=
    { st.localconf with channel_reserve_satoshis := set_reserve funding_satoshis }
  let tmpid := tmpid_ff
  if funding_satoshis ≥ 2 ^ 24 then
    (.peer_failed .BAD_PARAM .bad_funding_satoshis, [])
  else if push_msat > u64mul 1000 funding_satoshis then
    (.peer_failed .BAD_PARAM .bad_push_msat, [])
  else
    let openMsg : open_channel_msg PK :=
      { temporary_channel_id := tmpid
        funding_satoshis := funding_satoshis
        push_msat := push_msat
        dust_limit_satoshis := localconf.dust_limit_satoshis
        max_htlc_value_in_flight_msat := localconf.max_htlc_value_in_flight_msat
        channel_reserve_satoshis := localconf.channel_reserve_satoshis
        htlc_minimum_msat := localconf.htlc_minimum_msat
        feerate_per_kw := feerate_per_kw
        to_self_delay := localconf.to_self_delay
        max_accepted_htlcs := localconf.max_accepted_htlcs
        funding_pubkey := ours.funding_pubkey
        revocation_basepoint := ours.revocation_basepoint
        payment_basepoint := ours.payment_basepoint
        delayed_payment_basepoint := ours.delayed_payment_basepoint
        first_per_commitment_point := st.next_per_commit_local }
    let tr := [event.send_open openMsg]
    if ¬ env.write_open_ok then
      (.peer_failed .PEER_WRITE_FAILED .write_open_channel, tr)
    else
      let tr := tr ++ [event.recv_peer]
      match env.accept_read with
      | none => (.peer_failed .PEER_READ_FAILED .read_accept_channel, tr)
      | some (peer_in.accept a) =>
        if tmpid ≠ a.temporary_channel_id then
          (.peer_failed .PEER_READ_FAILED .accept_ids_mismatch, tr)
        else if a.minimum_depth > max_minimum_depth then
          (.peer_failed .BAD_PARAM .bad_minimum_depth, tr)
        else
          let remoteconf := remoteconf_of_accept a
          match check_config_bounds funding_satoshis localconf
              st.max_to_self_delay st.min_effective_htlc_capacity_msat
              remoteconf with
          | some e => (.peer_failed (config_err_code e) (.config e), tr)
          | none =>
            let tr := tr ++
              [event.to_status (.open_resp ours.funding_pubkey a.funding_pubkey),
               event.recv_req]
            match env.open_funding with
            | none => (.peer_failed .PEER_READ_FAILED .bad_open_funding, tr)
            | some (funding_txid, funding_txout) =>
              match ext.new_channel funding_txid funding_txout
                  funding_satoshis push_msat feerate_per_kw
                  localconf remoteconf side.LOCAL with
              | none => (.peer_failed .BAD_PARAM .create_channel_failed, tr)
              | some chan =>
                let remote_tx :=
                  ext.channel_tx chan a.first_per_commitment_point side.REMOTE
                let sig := sign_remote_commit ext ours.funding_pubkey
                  a.funding_pubkey remote_tx
                let fc : funding_created_msg SIG TXID :=
                  { temporary_channel_id := tmpid
                    funding_txid := funding_txid
                    funding_output_index := funding_txout
                    signature := sig }
                let tr := tr ++ [event.send_funding_created fc]
                if ¬ env.write_created_ok then
                  (.peer_failed .PEER_WRITE_FAILED .write_funding_created, tr)
                else
                  let tr := tr ++ [event.recv_peer]
                  match env.funding_signed_read with
                  | none =>
                    (.peer_failed .PEER_READ_FAILED .read_funding_signed, tr)
                  | some (peer_in.funding_signed fs) =>
                    if tmpid ≠ fs.channel_id then
                      (.peer_failed .PEER_READ_FAILED
                        .funding_signed_ids_mismatch, tr)
                    else
                      let local_tx :=
                        ext.channel_tx chan st.next_per_commit_local side.LOCAL
                      if ¬ check_commit_sig ext ours.funding_pubkey
                          a.funding_pubkey local_tx fs.signature then
                        (.peer_failed .PEER_READ_FAILED .bad_signature, tr)
                      else
                        let succ := success_msg.open_funding_resp remoteconf
                          fs.signature a.revocation_basepoint
                          a.payment_basepoint a.delayed_payment_basepoint
                          a.first_per_commitment_point
                        (.done succ, tr ++ [event.to_status (.success succ)])
                  | some _ =>
                    (.peer_failed .PEER_READ_FAILED .parse_funding_signed, tr)
      | some _ => (.peer_failed .PEER_READ_FAILED .parse_accept_channel, tr)

/-! ## The fundee state machine -/

/-- `recv_channel` (opening.c lines 485-669), the fundee path.  `peer_msg`
is the result of `fromwire_open_channel` on the already-received
`open_channel` bytes (`none` = parse failure). -/
def recv_channel_run (ext : ext_funs PK SIG TXID TX SCRIPT CHAN)
    (st : init_state PK) (ours : points PK)
    (min_feerate max_feerate : Nat)
    (peer_msg : Option (open_channel_msg PK))
    (env : fundee_env PK SIG TXID) :
    run_result PK SIG TXID × List (event PK SIG TXID) :=
  match peer_msg with
  | none => (.peer_failed .PEER_BAD_INITIAL_MESSAGE .parse_open_channel, [])
  | some o =>
    if o.funding_satoshis ≥ 2 ^ 24 then
      (.peer_failed .PEER_BAD_FUNDING .fundee_bad_funding_satoshis, [])
    else if o.push_msat > u64mul o.funding_satoshis 1000 then
      (.peer_failed .PEER_BAD_FUNDING .fundee_bad_push_msat, [])
    else if o.feerate_per_kw < min_feerate then
      (.peer_failed .PEER_BAD_FUNDING .feerate_too_small, [])
    else if o.feerate_per_kw > max_feerate then
      (.peer_failed .PEER_BAD_FUNDING .feerate_too_large, [])
    else
      let localconf :=
        { st.localconf with
          channel_reserve_satoshis := set_reserve o.funding_satoshis }
      let remoteconf := remoteconf_of_open o
      match check_config_bounds o.funding_satoshis localconf
          st.max_to_self_delay st.min_effective_htlc_capacity_msat
          remoteconf with
      | some e => (.peer_failed (config_err_code e) (.config e), [])
      | none =>
        let acceptMsg : accept_channel_msg PK :=
          { temporary_channel_id := o.temporary_channel_id
            dust_limit_satoshis := localconf.dust_limit_satoshis
            max_htlc_value_in_flight_msat :=
              localconf.max_htlc_value_in_flight_msat
            channel_reserve_satoshis := localconf.channel_reserve_satoshis
            minimum_depth := localconf.minimum_depth
            htlc_minimum_msat := localconf.htlc_minimum_msat
            to_self_delay := localconf.to_self_delay
            max_accepted_htlcs := localconf.max_accepted_htlcs
            funding_pubkey := ours.funding_pubkey
            revocation_basepoint := ours.revocation_basepoint
            payment_basepoint := ours.payment_basepoint
            delayed_payment_basepoint := ours.delayed_payment_basepoint
            -- source line 573 serializes &state->next_per_commit[REMOTE],
            -- the point received in open_channel, into this field
            first_per_commitment_point := o.first_per_commitment_point }
        let tr := [event.send_accept acceptMsg]
        if ¬ env.write_accept_ok then
          (.peer_failed .PEER_WRITE_FAILED .write_accept_channel, tr)
        else
          let tr := tr ++ [event.recv_peer]
          match env.funding_created_read with
          | none => (.peer_failed .PEER_READ_FAILED .read_funding_created, tr)
          | some (peer_in.funding_created fc) =>
            if o.temporary_channel_id ≠ fc.temporary_channel_id then
              (.peer_failed .PEER_READ_FAILED .funding_created_ids_mismatch, tr)
            else
              match ext.new_channel fc.funding_txid fc.funding_output_index
                  o.funding_satoshis o.push_msat o.feerate_per_kw
                  localconf remoteconf side.REMOTE with
              | none =>
                (.peer_failed .BAD_PARAM .fundee_create_channel_failed, tr)
              | some chan =>
                let local_tx :=
                  ext.channel_tx chan st.next_per_commit_local side.LOCAL
                if ¬ check_commit_sig ext ours.funding_pubkey
                    o.funding_pubkey local_tx fc.signature then
                  (.peer_failed .PEER_READ_FAILED .fundee_bad_signature, tr)
                else
                  let remote_tx :=
                    ext.channel_tx chan o.first_per_commitment_point side.REMOTE
                  let sig := sign_remote_commit ext ours.funding_pubkey
                    o.funding_pubkey remote_tx
                  let fs : funding_signed_msg SIG :=
                    { channel_id := o.temporary_channel_id, signature := sig }
                  let tr := tr ++ [event.send_funding_signed fs]
                  if ¬ env.write_signed_ok then
                    (.peer_failed .PEER_WRITE_FAILED .write_funding_signed, tr)
                  else
                    let succ := success_msg.accept_resp fc.funding_txid
                      fc.funding_output_index remoteconf fc.signature
                      o.funding_pubkey o.revocation_basepoint
                      o.payment_basepoint o.delayed_payment_basepoint
                      o.first_per_commitment_point
                    (.done succ, tr ++ [event.to_status (.success succ)])
          | some _ =>
            (.peer_failed .PEER_READ_FAILED .parse_funding_created, tr)

/-! ## Tail of `main` -/

/-- A message read from the control channel after the terminal success:
either it parses as `opening_exit_req` or it is some other message. -/
inductive control_in where
  | exit_req
  | other
deriving DecidableEq, Repr

/-- How the whole process ends: exit code 0, or a fatal status. -/
inductive main_result where
  | exit_zero
  | fatal : status_code → main_result
deriving DecidableEq, Repr

/-- Tail of `main` (opening.c lines 722-733) composed with a path run.
When the path run ends fatally the process has already exited with that
status.  Otherwise `main` hands the peer fd back (`fdpass_send(REQ_FD,
PEER_FD)`), then blocks reading the control channel, exiting 0 only on a
message that parses as `opening_exit_req`; an unreadable channel or any
other message dies with `WIRE_OPENING_BAD_COMMAND` (`status_failed` is
modelled from the spec: status.h is outside src/; spec §7: local failure,
no peer error frame, nonzero exit). -/
def engine_after (p : run_result PK SIG TXID × List (event PK SIG TXID))
    (ctrl : Option control_in) :
    main_result × List (event PK SIG TXID) :=
  match p.1 with
  | .peer_failed c _ => (.fatal c, p.2)
  | .done _ =>
    let tr := p.2 ++ [event.fdpass_peer, event.recv_req]
    match ctrl with
    | some .exit_req => (.exit_zero, tr)
    | some .other => (.fatal .BAD_COMMAND, tr)
    | none => (.fatal .BAD_COMMAND, tr)

/-! ## Concrete instances (used by the witnesses)

All opaque types are instantiated by `Nat`; the opaque collaborators by
simple total functions. -/

/-- Sample collaborators whose signature check always succeeds. -/
def extT : ext_funs Nat Nat Nat Nat Nat Nat :=
  { bitcoin_redeem_2of2 := fun a b => 1000000 + a * 1000 + b
    check_tx_sig := fun _ _ _ _ => true
    sign_tx_input := fun tx script => tx + script
    channel_tx := fun c p s =>
      c * 100 + p * 10 + (match s with | .LOCAL => 0 | .REMOTE => 1)
    new_channel := fun _ _ _ _ _ _ _ _ => some 7 }

/-- Sample collaborators whose signature check always fails. -/
def extF : ext_funs Nat Nat Nat Nat Nat Nat :=
  { extT with check_tx_sig := fun _ _ _ _ => false }

/-- A sample local config. -/
def lcS : channel_config :=
  { dust_limit_satoshis := 546
    max_htlc_value_in_flight_msat := 10000000000
    channel_reserve_satoshis := 0
    htlc_minimum_msat := 0
    to_self_delay := 100
    max_accepted_htlcs := 10
    minimum_depth := 3 }

/-- A sample init state: `next_per_commit[LOCAL] = 5`. -/
def stS : init_state Nat :=
  { localconf := lcS
    max_to_self_delay := 1008
    min_effective_htlc_capacity_msat := 100
    next_per_commit_local := 5 }

/-- Our sample basepoints. -/
def oursS : points Nat :=
  { funding_pubkey := 21
    revocation_basepoint := 22
    payment_basepoint := 23
    delayed_payment_basepoint := 24 }

/-- A sample well-formed `accept_channel` from the peer. -/
def acceptS : accept_channel_msg Nat :=
  { temporary_channel_id := tmpid_ff
    dust_limit_satoshis := 546
    max_htlc_value_in_flight_msat := 10000000000
    channel_reserve_satoshis := 1000
    minimum_depth := 3
    htlc_minimum_msat := 0
    to_self_delay := 100
    max_accepted_htlcs := 10
    funding_pubkey := 31
    revocation_basepoint := 32
    payment_basepoint := 33
    delayed_payment_basepoint := 34
    first_per_commitment_point := 35 }

/-- A sample `funding_signed` echoing the funder's temporary id. -/
def fsS : funding_signed_msg Nat := { channel_id := tmpid_ff, signature := 99 }

/-- A funder environment in which every step succeeds. -/
def fenvS : funder_env Nat Nat Nat :=
  { write_open_ok := true
    accept_read := some (.accept acceptS)
    open_funding := some (77, 0)
    write_created_ok := true
    funding_signed_read := some (.funding_signed fsS) }

/-- The temporary id a sample remote funder picked. -/
def tmpidS : channel_id := List.replicate 32 170

/-- A sample well-formed `open_channel` from a remote funder:
its `first_per_commitment_point` is 35, distinct from our
`next_per_commit[LOCAL] = 5`. -/
def openS : open_channel_msg Nat :=
  { temporary_channel_id := tmpidS
    funding_satoshis := 500000
    push_msat := 100000000
    dust_limit_satoshis := 546
    max_htlc_value_in_flight_msat := 10000000000
    channel_reserve_satoshis := 1000
    htlc_minimum_msat := 0
    feerate_per_kw := 15000
    to_self_delay := 100
    max_accepted_htlcs := 10
    funding_pubkey := 31
    revocation_basepoint := 32
    payment_basepoint := 33
    delayed_payment_basepoint := 34
    first_per_commitment_point := 35 }

/-- A sample `funding_created` echoing the funder's temporary id. -/
def fcS : funding_created_msg Nat Nat :=
  { temporary_channel_id := tmpidS
    funding_txid := 88
    funding_output_index := 1
    signature := 99 }

/-- A fundee environment in which every step succeeds. -/
def eenvS : fundee_env Nat Nat Nat :=
  { write_accept_ok := true
    funding_created_read := some (.funding_created fcS)
    write_signed_ok := true }

/-- An `accept_channel` whose echoed temporary id (170…) differs from the
funder's 0xFF…FF one. -/
def acceptBad : accept_channel_msg Nat :=
  { acceptS with temporary_channel_id := tmpidS }

/-- The success payload of the sample funder run. -/
def succFS : success_msg Nat Nat Nat :=
  .open_funding_resp (remoteconf_of_accept acceptS) 99 32 33 34 35

/-- The trace of the sample funder run. -/
def trFS : List (event Nat Nat Nat) :=
  [.send_open
      { temporary_channel_id := tmpid_ff
        funding_satoshis := 1000000
        push_msat := 0
        dust_limit_satoshis := 546
        max_htlc_value_in_flight_msat := 10000000000
        channel_reserve_satoshis := 10000
        htlc_minimum_msat := 0
        feerate_per_kw := 15000
        to_self_delay := 100
        max_accepted_htlcs := 10
        funding_pubkey := 21
        revocation_basepoint := 22
        payment_basepoint := 23
        delayed_payment_basepoint := 24
        first_per_commitment_point := 5 },
   .recv_peer,
   .to_status (.open_resp 21 31),
   .recv_req,
   .send_funding_created
      { temporary_channel_id := tmpid_ff
        funding_txid := 77
        funding_output_index := 0
        signature := 1022082 },
   .recv_peer,
   .to_status (.success succFS)]

/-- The success payload of the sample fundee run. -/
def succES : success_msg Nat Nat Nat :=
  .accept_resp 88 1 (remoteconf_of_open openS) 99 31 32 33 34 35

/-- The `accept_channel` the sample fundee emits in reply to `openS`
(its fields as the engine computes them). -/
def acceptSentS : accept_channel_msg Nat :=
  { temporary_channel_id := tmpidS
    dust_limit_satoshis := 546
    max_htlc_value_in_flight_msat := 10000000000
    channel_reserve_satoshis := 5000
    minimum_depth := 3
    htlc_minimum_msat := 0
    to_self_delay := 100
    max_accepted_htlcs := 10
    funding_pubkey := 21
    revocation_basepoint := 22
    payment_basepoint := 23
    delayed_payment_basepoint := 24
    first_per_commitment_point := 35 }

/-- The trace of the sample fundee run. -/
def trES : List (event Nat Nat Nat) :=
  [.send_accept acceptSentS,
   .recv_peer,
   .send_funding_signed { channel_id := tmpidS, signature := 1022082 },
   .to_status (.success succES)]

/-! ## Arithmetic helper lemmas -/

theorem u64mul_eq (a b : Nat) (h : a * b < U64MOD) : u64mul a b = a * b :=
  Nat.mod_eq_of_lt h

theorem u64sub_eq (a b : Nat) (hb : b ≤ a) (ha : a < U64MOD) :
    u64sub a b = a - b := by
  unfold u64sub
  have h1 : a + U64MOD - b = (a - b) + U64MOD := by omega
  rw [h1, Nat.add_mod_right]
  exact Nat.mod_eq_of_lt (by omega)

theorem set_reserve_eq (f : Nat) (hf : f < 2 ^ 24) :
    set_reserve f = (f + 99) / 100 := by
  unfold set_reserve u64add U64MOD
  rw [Nat.mod_eq_of_lt (by omega)]

theorem set_reserve_le (f : Nat) (hf : f < 2 ^ 24) : set_reserve f ≤ f := by
  rw [set_reserve_eq f hf]
  have h : (f + 99) / 100 < f + 1 := by
    rw [Nat.div_lt_iff_lt_mul (by norm_num)]
    omega
  omega

theorem reserve_msat_u64_eq (lcres : Nat) (rc : channel_config)
    (hl : lcres * 1000 < U64MOD)
    (hr : rc.channel_reserve_satoshis * 1000 < U64MOD) :
    reserve_msat_u64 lcres rc =
      max rc.channel_reserve_satoshis lcres * 1000 := by
  unfold reserve_msat_u64
  dsimp only
  rw [u64mul_eq _ _ hr, u64mul_eq _ _ hl]
  split_ifs <;> omega

theorem capacity_u64_eq_spec (f lcres : Nat) (rc : channel_config)
    (hf : f < 2 ^ 24) (hrc : rc.channel_reserve_satoshis ≤ f)
    (hlc : lcres ≤ f) :
    capacity_msat_u64 f lcres rc = capacity_msat_spec f lcres rc := by
  have hfm : f * 1000 < U64MOD := by unfold U64MOD; omega
  have hl : lcres * 1000 < U64MOD := by unfold U64MOD; omega
  have hr : rc.channel_reserve_satoshis * 1000 < U64MOD := by
    unfold U64MOD; omega
  have hsub : max rc.channel_reserve_satoshis lcres * 1000 ≤ f * 1000 := by
    omega
  unfold capacity_msat_u64 capacity_msat_spec
  dsimp only
  rw [reserve_msat_u64_eq lcres rc hl hr, u64mul_eq f 1000 hfm,
      u64sub_eq _ _ hsub hfm]
  split_ifs <;> omega

/-! ## Claim theorems -/

/-- C10: under `funding_satoshis < 2^24`,
`remoteconf.channel_reserve_satoshis ≤ funding_satoshis` and
`localconf.channel_reserve_satoshis = ⌈funding_satoshis/100⌉` as `set_reserve`
computes it, every u64 step of the validator's capacity computation (the two
reserve × 1000 products, `funding_satoshis × 1000`, and the subtraction) is
overflow- and underflow-free, so the computed capacity equals its exact
mathematical value. -/
theorem C10_capacity_arithmetic_exact (f lcres : Nat) (rc : channel_config)
    (hf : f < 2 ^ 24) (hrc : rc.channel_reserve_satoshis ≤ f)
    (hlc : lcres = set_reserve f) :
    u64mul rc.channel_reserve_satoshis 1000 =
      rc.channel_reserve_satoshis * 1000 ∧
    u64mul lcres 1000 = lcres * 1000 ∧
    u64mul f 1000 = f * 1000 ∧
    reserve_msat_u64 lcres rc ≤ f * 1000 ∧
    u64sub (u64mul f 1000) (reserve_msat_u64 lcres rc) =
      f * 1000 - reserve_msat_u64 lcres rc ∧
    capacity_msat_u64 f lcres rc = capacity_msat_spec f lcres rc := by
  have hlcf : lcres ≤ f := hlc ▸ set_reserve_le f hf
  have hfm : f * 1000 < U64MOD := by unfold U64MOD; omega
  have hl : lcres * 1000 < U64MOD := by unfold U64MOD; omega
  have hr : rc.channel_reserve_satoshis * 1000 < U64MOD := by
    unfold U64MOD; omega
  have hres : reserve_msat_u64 lcres rc ≤ f * 1000 := by
    rw [reserve_msat_u64_eq lcres rc hl hr]
    omega
  refine ⟨u64mul_eq _ _ hr, u64mul_eq _ _ hl, u64mul_eq _ _ hfm, hres, ?_, ?_⟩
  · rw [u64mul_eq _ _ hfm]
    exact u64sub_eq _ _ hres hfm
  · exact capacity_u64_eq_spec f lcres rc hf hrc hlcf

/-- C10 witness: the arithmetic-exactness theorem applied at
`funding_satoshis = 1000000` and the sample remote config. -/
theorem C10_capacity_arithmetic_exact_witness :
    capacity_msat_u64 1000000 (set_reserve 1000000)
        (remoteconf_of_accept acceptS) =
      capacity_msat_spec 1000000 (set_reserve 1000000)
        (remoteconf_of_accept acceptS) :=
  (C10_capacity_arithmetic_exact 1000000 (set_reserve 1000000)
    (remoteconf_of_accept acceptS) (by decide) (by decide) rfl).2.2.2.2.2

/-- C3: once the `to_self_delay` and reserve-overflow checks have passed
(and with the localconf reserve as both call sites set it, the funding
amount below 2^24 as both call sites have established, and the u32 width
of `htlc_minimum_msat`), the validator fails at its htlc-minimum check —
whose status code is `PEER_BAD_CONFIG` — exactly when
`remoteconf.htlc_minimum_msat × 1000` exceeds
`capacity_msat = min(funding_satoshis × 1000 − max(reserves) × 1000,
remoteconf.max_htlc_value_in_flight_msat)`. -/
theorem C3_htlc_minimum_check (f : Nat) (lc rc : channel_config) (md me : Nat)
    (hf : f < 2 ^ 24)
    (hlc : lc.channel_reserve_satoshis = set_reserve f)
    (hm : rc.htlc_minimum_msat < 2 ^ 32)
    (h1 : rc.to_self_delay ≤ md)
    (h2 : rc.channel_reserve_satoshis ≤ f) :
    (check_config_bounds f lc md me rc = some .bad_htlc_minimum ↔
      rc.htlc_minimum_msat * 1000 >
        capacity_msat_spec f lc.channel_reserve_satoshis rc) ∧
    config_err_code .bad_htlc_minimum = .PEER_BAD_CONFIG := by
  refine ⟨?_, rfl⟩
  have hmm : u64mul rc.htlc_minimum_msat 1000 = rc.htlc_minimum_msat * 1000 :=
    u64mul_eq _ _ (by unfold U64MOD; omega)
  have hcap : capacity_msat_u64 f lc.channel_reserve_satoshis rc =
      capacity_msat_spec f lc.channel_reserve_satoshis rc :=
    capacity_u64_eq_spec f lc.channel_reserve_satoshis rc hf h2
      (hlc ▸ set_reserve_le f hf)
  unfold check_config_bounds
  dsimp only
  rw [if_neg (by omega), if_neg (by omega), hmm, hcap]
  split_ifs <;> simp_all

/-- C3 witness: with the sample configs and `htlc_minimum_msat = 2^31`
(larger than the channel's capacity), the validator reports the
htlc-minimum failure. -/
theorem C3_htlc_minimum_check_witness :
    check_config_bounds 1000000
        { lcS with channel_reserve_satoshis := set_reserve 1000000 }
        1008 100
        { remoteconf_of_accept acceptS with htlc_minimum_msat := 2 ^ 31 } =
      some .bad_htlc_minimum :=
  (C3_htlc_minimum_check 1000000
    { lcS with channel_reserve_satoshis := set_reserve 1000000 }
    { remoteconf_of_accept acceptS with htlc_minimum_msat := 2 ^ 31 }
    1008 100 (by decide) rfl (by decide) (by decide) (by decide)).1.mpr
    (by decide)

/-- C7: for a remote config that passes every check before the
`max_accepted_htlcs` ones, the validator accepts exactly when
`max_accepted_htlcs ∈ [1, 511]`; 0 trips the zero check and anything above
511 trips the upper-bound check, both with status `PEER_BAD_CONFIG`. -/
theorem C7_max_accepted_htlcs (f : Nat) (lc rc : channel_config) (md me : Nat)
    (h1 : rc.to_self_delay ≤ md)
    (h2 : rc.channel_reserve_satoshis ≤ f)
    (h3 : u64mul rc.htlc_minimum_msat 1000 ≤
      capacity_msat_u64 f lc.channel_reserve_satoshis rc)
    (h4 : me ≤ capacity_msat_u64 f lc.channel_reserve_satoshis rc) :
    (check_config_bounds f lc md me rc = none ↔
      1 ≤ rc.max_accepted_htlcs ∧ rc.max_accepted_htlcs ≤ 511) ∧
    (rc.max_accepted_htlcs = 0 →
      check_config_bounds f lc md me rc = some .zero_max_accepted_htlcs) ∧
    (511 < rc.max_accepted_htlcs →
      check_config_bounds f lc md me rc = some .big_max_accepted_htlcs) ∧
    config_err_code .zero_max_accepted_htlcs = .PEER_BAD_CONFIG ∧
    config_err_code .big_max_accepted_htlcs = .PEER_BAD_CONFIG := by
  unfold check_config_bounds
  dsimp only
  rw [if_neg (by omega), if_neg (by omega), if_neg (by omega),
      if_neg (by omega)]
  refine ⟨?_, ?_, ?_, rfl, rfl⟩ <;> split_ifs <;> simp_all <;> omega

/-- C7 witness: the validator applied to the sample remote config with
`max_accepted_htlcs = 512` reports the upper-bound failure. -/
theorem C7_max_accepted_htlcs_witness :
    check_config_bounds 1000000
        { lcS with channel_reserve_satoshis := set_reserve 1000000 }
        1008 100
        { remoteconf_of_accept acceptS with max_accepted_htlcs := 512 } =
      some .big_max_accepted_htlcs :=
  (C7_max_accepted_htlcs 1000000
    { lcS with channel_reserve_satoshis := set_reserve 1000000 }
    { remoteconf_of_accept acceptS with max_accepted_htlcs := 512 }
    1008 100 (by decide) (by decide) (by decide) (by decide)).2.2.1
    (by decide)

/-- C4: `set_reserve` computes `⌈funding_satoshis / 100⌉` for every
`funding_satoshis ∈ [1, 2^24 − 1]` (in particular 99→1, 100→1, 101→2,
200→2), and both the funder path (in its outgoing `open_channel`) and the
fundee path (in its outgoing `accept_channel`) publish exactly
`set_reserve funding_satoshis` as `localconf.channel_reserve_satoshis`. -/
theorem C4_reserve_one_percent_rounded_up
    {PK SIG TXID TX SCRIPT CHAN : Type}
    (ext : ext_funs PK SIG TXID TX SCRIPT CHAN) (st : init_state PK)
    (ours : points PK) (f push fr mmd : Nat) (env : funder_env PK SIG TXID)
    (min_fr max_fr : Nat) (o : open_channel_msg PK)
    (env2 : fundee_env PK SIG TXID)
    (hf : f < 2 ^ 24) (hp : push ≤ u64mul 1000 f)
    (ho1 : o.funding_satoshis < 2 ^ 24)
    (ho2 : o.push_msat ≤ u64mul o.funding_satoshis 1000)
    (ho3 : min_fr ≤ o.feerate_per_kw) (ho4 : o.feerate_per_kw ≤ max_fr)
    (hcfg : check_config_bounds o.funding_satoshis
      { st.localconf with
        channel_reserve_satoshis := set_reserve o.funding_satoshis }
      st.max_to_self_delay st.min_effective_htlc_capacity_msat
      (remoteconf_of_open o) = none) :
    (∀ g : Nat, 1 ≤ g → g ≤ 2 ^ 24 - 1 → set_reserve g = g ⌈/⌉ 100) ∧
    set_reserve 99 = 1 ∧ set_reserve 100 = 1 ∧
    set_reserve 101 = 2 ∧ set_reserve 200 = 2 ∧
    (∃ m, (open_channel_run ext st ours f push fr mmd env).2.head? =
        some (.send_open m) ∧
      m.channel_reserve_satoshis = set_reserve f) ∧
    (∃ m, (recv_channel_run ext st ours min_fr max_fr (some o) env2).2.head? =
        some (.send_accept m) ∧
      m.channel_reserve_satoshis = set_reserve o.funding_satoshis) := by
  refine ⟨?_, by decide, by decide, by decide, by decide, ?_, ?_⟩
  · intro g h1 h2
    have h3 : g + 99 = g + 100 - 1 := by omega
    rw [Nat.ceilDiv_eq_add_pred_div, set_reserve_eq g (by omega), h3]
  · refine ⟨{ temporary_channel_id := tmpid_ff
              funding_satoshis := f
              push_msat := push
              dust_limit_satoshis := st.localconf.dust_limit_satoshis
              max_htlc_value_in_flight_msat :=
                st.localconf.max_htlc_value_in_flight_msat
              channel_reserve_satoshis := set_reserve f
              htlc_minimum_msat := st.localconf.htlc_minimum_msat
              feerate_per_kw := fr
              to_self_delay := st.localconf.to_self_delay
              max_accepted_htlcs := st.localconf.max_accepted_htlcs
              funding_pubkey := ours.funding_pubkey
              revocation_basepoint := ours.revocation_basepoint
              payment_basepoint := ours.payment_basepoint
              delayed_payment_basepoint := ours.delayed_payment_basepoint
              first_per_commitment_point := st.next_per_commit_local },
            ?_, rfl⟩
    unfold open_channel_run
    rw [if_neg (by omega), if_neg (by omega)]
    dsimp only
    repeat' split
    all_goals simp
  · refine ⟨{ temporary_channel_id := o.temporary_channel_id
              dust_limit_satoshis := st.localconf.dust_limit_satoshis
              max_htlc_value_in_flight_msat :=
                st.localconf.max_htlc_value_in_flight_msat
              channel_reserve_satoshis := set_reserve o.funding_satoshis
              minimum_depth := st.localconf.minimum_depth
              htlc_minimum_msat := st.localconf.htlc_minimum_msat
              to_self_delay := st.localconf.to_self_delay
              max_accepted_htlcs := st.localconf.max_accepted_htlcs
              funding_pubkey := ours.funding_pubkey
              revocation_basepoint := ours.revocation_basepoint
              payment_basepoint := ours.payment_basepoint
              delayed_payment_basepoint := ours.delayed_payment_basepoint
              first_per_commitment_point := o.first_per_commitment_point },
            ?_, rfl⟩
    unfold recv_channel_run
    dsimp only
    rw [if_neg (by omega), if_neg (by omega), if_neg (by omega),
        if_neg (by omega), hcfg]
    repeat' split
    all_goals simp_all

/-- C4 witness: both sample runs, at `funding_satoshis = 1000000` (funder)
and `500000` (fundee), open with a message whose reserve field is the 1%
rounded up. -/
theorem C4_reserve_one_percent_rounded_up_witness :
    ∃ m, (open_channel_run extT stS oursS 1000000 0 15000 10 fenvS).2.head? =
        some (.send_open m) ∧
      m.channel_reserve_satoshis = set_reserve 1000000 :=
  (C4_reserve_one_percent_rounded_up extT stS oursS 1000000 0 15000 10 fenvS
    7500 30000 openS eenvS (by decide) (by decide) (by decide) (by decide)
    (by decide) (by decide) (by decide)).2.2.2.2.2.1

/-- C5: whenever `push_msat > 1000 × funding_satoshis` (with
`funding_satoshis` inside its 2^24 bound), the funder path dies with
`BAD_PARAM` having performed no I/O at all — in particular none on the
peer stream. -/
theorem C5_bad_push_terminates_before_peer_io
    {PK SIG TXID TX SCRIPT CHAN : Type}
    (ext : ext_funs PK SIG TXID TX SCRIPT CHAN) (st : init_state PK)
    (ours : points PK) (f push fr mmd : Nat) (env : funder_env PK SIG TXID)
    (hf : f < 2 ^ 24) (hp : push > 1000 * f) :
    open_channel_run ext st ours f push fr mmd env =
      (.peer_failed .BAD_PARAM .bad_push_msat, []) := by
  have hmul : u64mul 1000 f = 1000 * f :=
    u64mul_eq _ _ (by unfold U64MOD; omega)
  unfold open_channel_run
  rw [hmul, if_neg (by omega), if_pos hp]

/-- C5 witness: the claim's concrete scenario, `funding_satoshis = 1000`,
`push_msat = 1000001`. -/
theorem C5_bad_push_terminates_before_peer_io_witness :
    open_channel_run extT stS oursS 1000 1000001 15000 10 fenvS =
      (.peer_failed .BAD_PARAM .bad_push_msat, []) :=
  C5_bad_push_terminates_before_peer_io extT stS oursS 1000 1000001 15000 10
    fenvS (by decide) (by decide)

/-- C6: `funding_satoshis ≥ 2^24` makes the funder path die with
`BAD_PARAM` and the fundee path with `PEER_BAD_FUNDING` (both before any
I/O); below 2^24 neither of those two checks can be the failure. -/
theorem C6_funding_satoshis_bound
    {PK SIG TXID TX SCRIPT CHAN : Type}
    (ext : ext_funs PK SIG TXID TX SCRIPT CHAN) (st : init_state PK)
    (ours : points PK) (f push fr mmd : Nat) (env : funder_env PK SIG TXID)
    (min_fr max_fr : Nat) (o : open_channel_msg PK)
    (env2 : fundee_env PK SIG TXID) :
    (2 ^ 24 ≤ f → open_channel_run ext st ours f push fr mmd env =
      (.peer_failed .BAD_PARAM .bad_funding_satoshis, [])) ∧
    (2 ^ 24 ≤ o.funding_satoshis →
      recv_channel_run ext st ours min_fr max_fr (some o) env2 =
        (.peer_failed .PEER_BAD_FUNDING .fundee_bad_funding_satoshis, [])) ∧
    (f < 2 ^ 24 → (open_channel_run ext st ours f push fr mmd env).1 ≠
      .peer_failed .BAD_PARAM .bad_funding_satoshis) ∧
    (o.funding_satoshis < 2 ^ 24 →
      (recv_channel_run ext st ours min_fr max_fr (some o) env2).1 ≠
        .peer_failed .PEER_BAD_FUNDING .fundee_bad_funding_satoshis) := by
  refine ⟨?_, ?_, ?_, ?_⟩
  · intro h
    unfold open_channel_run
    rw [if_pos (by omega)]
  · intro h
    unfold recv_channel_run
    dsimp only
    rw [if_pos (by omega)]
  · intro h
    unfold open_channel_run
    rw [if_neg (by omega)]
    dsimp only
    repeat' split
    all_goals simp
  · intro h
    unfold recv_channel_run
    dsimp only
    rw [if_neg (by omega)]
    repeat' split
    all_goals simp

/-- C6 witness: at `funding_satoshis = 2^24` the funder dies with
`BAD_PARAM` on the funding check. -/
theorem C6_funding_satoshis_bound_witness :
    open_channel_run extT stS oursS (2 ^ 24) 0 15000 10 fenvS =
      (.peer_failed .BAD_PARAM .bad_funding_satoshis, []) :=
  (C6_funding_satoshis_bound extT stS oursS (2 ^ 24) 0 15000 10 fenvS
    7500 30000 openS eenvS).1 (by decide)

/-! ## Evaluation lemmas for pinned environments

These evaluate the two paths under an environment in which every read
succeeds with a well-formed message and every check up to the signature
verification passes, leaving only the signature check open. -/

theorem open_channel_run_pinned
    {PK SIG TXID TX SCRIPT CHAN : Type}
    (ext : ext_funs PK SIG TXID TX SCRIPT CHAN) (st : init_state PK)
    (ours : points PK) (f push fr mmd : Nat)
    (a : accept_channel_msg PK) (txid : TXID) (txout : Nat) (chan : CHAN)
    (fs : funding_signed_msg SIG)
    (hf : f < 2 ^ 24) (hp : push ≤ u64mul 1000 f)
    (ha : a.temporary_channel_id = tmpid_ff)
    (hd : a.minimum_depth ≤ mmd)
    (hcfg : check_config_bounds f
      { st.localconf with channel_reserve_satoshis := set_reserve f }
      st.max_to_self_delay st.min_effective_htlc_capacity_msat
      (remoteconf_of_accept a) = none)
    (hch : ext.new_channel txid txout f push fr
      { st.localconf with channel_reserve_satoshis := set_reserve f }
      (remoteconf_of_accept a) side.LOCAL = some chan)
    (hfs : fs.channel_id = tmpid_ff) :
    (check_commit_sig ext ours.funding_pubkey a.funding_pubkey
        (ext.channel_tx chan st.next_per_commit_local side.LOCAL)
        fs.signature = false →
      (open_channel_run ext st ours f push fr mmd
        ⟨true, some (.accept a), some (txid, txout), true,
         some (.funding_signed fs)⟩).1 =
          .peer_failed .PEER_READ_FAILED .bad_signature ∧
      ∀ s, event.to_status (.success s) ∉
        (open_channel_run ext st ours f push fr mmd
          ⟨true, some (.accept a), some (txid, txout), true,
           some (.funding_signed fs)⟩).2) ∧
    (check_commit_sig ext ours.funding_pubkey a.funding_pubkey
        (ext.channel_tx chan st.next_per_commit_local side.LOCAL)
        fs.signature = true →
      (open_channel_run ext st ours f push fr mmd
        ⟨true, some (.accept a), some (txid, txout), true,
         some (.funding_signed fs)⟩).1 =
        .done (success_msg.open_funding_resp (remoteconf_of_accept a)
          fs.signature a.revocation_basepoint a.payment_basepoint
          a.delayed_payment_basepoint a.first_per_commitment_point)) := by
  have e1 : ¬ (f ≥ 2 ^ 24) := by omega
  have e2 : ¬ (push > u64mul 1000 f) := by omega
  have e6 : ¬ (mmd < a.minimum_depth) := by omega
  constructor
  · intro hsig
    constructor
    · simp only [open_channel_run, e1, e2, e6, ha, hcfg, hch, hfs, hsig,
        if_false, ite_false, ite_true, not_true, not_false_iff]
      rfl
    · intro s
      simp only [open_channel_run, e1, e2, e6, ha, hcfg, hch, hfs, hsig,
        if_false, ite_false, ite_true, not_true, not_false_iff]
      simp
  · intro hsig
    simp only [open_channel_run, e1, e2, e6, ha, hcfg, hch, hfs, hsig,
      if_false, ite_false, ite_true, not_true, not_false_iff]
    simp

theorem recv_channel_run_pinned
    {PK SIG TXID TX SCRIPT CHAN : Type}
    (ext : ext_funs PK SIG TXID TX SCRIPT CHAN) (st : init_state PK)
    (ours : points PK) (min_fr max_fr : Nat)
    (o : open_channel_msg PK) (fc : funding_created_msg SIG TXID)
    (chan : CHAN)
    (ho1 : o.funding_satoshis < 2 ^ 24)
    (ho2 : o.push_msat ≤ u64mul o.funding_satoshis 1000)
    (ho3 : min_fr ≤ o.feerate_per_kw)
    (ho4 : o.feerate_per_kw ≤ max_fr)
    (hocfg : check_config_bounds o.funding_satoshis
      { st.localconf with
        channel_reserve_satoshis := set_reserve o.funding_satoshis }
      st.max_to_self_delay st.min_effective_htlc_capacity_msat
      (remoteconf_of_open o) = none)
    (hfc : fc.temporary_channel_id = o.temporary_channel_id)
    (hch : ext.new_channel fc.funding_txid fc.funding_output_index
      o.funding_satoshis o.push_msat o.feerate_per_kw
      { st.localconf with
        channel_reserve_satoshis := set_reserve o.funding_satoshis }
      (remoteconf_of_open o) side.REMOTE = some chan) :
    (check_commit_sig ext ours.funding_pubkey o.funding_pubkey
        (ext.channel_tx chan st.next_per_commit_local side.LOCAL)
        fc.signature = false →
      (recv_channel_run ext st ours min_fr max_fr (some o)
        ⟨true, some (.funding_created fc), true⟩).1 =
          .peer_failed .PEER_READ_FAILED .fundee_bad_signature ∧
      ∀ s, event.to_status (.success s) ∉
        (recv_channel_run ext st ours min_fr max_fr (some o)
          ⟨true, some (.funding_created fc), true⟩).2) ∧
    (check_commit_sig ext ours.funding_pubkey o.funding_pubkey
        (ext.channel_tx chan st.next_per_commit_local side.LOCAL)
        fc.signature = true →
      (recv_channel_run ext st ours min_fr max_fr (some o)
        ⟨true, some (.funding_created fc), true⟩).1 =
        .done (success_msg.accept_resp fc.funding_txid
          fc.funding_output_index (remoteconf_of_open o) fc.signature
          o.funding_pubkey o.revocation_basepoint o.payment_basepoint
          o.delayed_payment_basepoint o.first_per_commitment_point)) := by
  have e1 : ¬ (o.funding_satoshis ≥ 2 ^ 24) := by omega
  have e2 : ¬ (o.push_msat > u64mul o.funding_satoshis 1000) := by omega
  have e3 : ¬ (o.feerate_per_kw < min_fr) := by omega
  have e4 : ¬ (max_fr < o.feerate_per_kw) := by omega
  constructor
  · intro hsig
    constructor
    · simp only [recv_channel_run, e1, e2, e3, e4, hocfg, hch, hsig,
        if_false, ite_false, ite_true, not_true, not_false_iff]
      simp [hfc]
    · intro s
      simp only [recv_channel_run, e1, e2, e3, e4, hocfg, hch, hsig,
        if_false, ite_false, ite_true, not_true, not_false_iff]
      simp [hfc]
  · intro hsig
    simp only [recv_channel_run, e1, e2, e3, e4, hocfg, hch, hsig,
      if_false, ite_false, ite_true, not_true, not_false_iff]
    simp [hfc]

set_option maxHeartbeats 2000000 in
theorem open_channel_run_done_trace
    {PK SIG TXID TX SCRIPT CHAN : Type}
    (ext : ext_funs PK SIG TXID TX SCRIPT CHAN) (st : init_state PK)
    (ours : points PK) (f push fr mmd : Nat) (env : funder_env PK SIG TXID)
    (s : success_msg PK SIG TXID) (tr : List (event PK SIG TXID))
    (h : open_channel_run ext st ours f push fr mmd env = (.done s, tr)) :
    tr.getLast? = some (.to_status (.success s)) := by
  unfold open_channel_run at h
  dsimp only at h
  repeat' split at h
  all_goals
    first
      | (injection h with h1 h2; injection h1; done)
      | (injection h with h1 h2; injection h1 with h3; subst h3; rw [← h2]
         exact List.getLast?_concat _)

set_option maxHeartbeats 2000000 in
theorem recv_channel_run_done_trace
    {PK SIG TXID TX SCRIPT CHAN : Type}
    (ext : ext_funs PK SIG TXID TX SCRIPT CHAN) (st : init_state PK)
    (ours : points PK) (min_fr max_fr : Nat)
    (pm : Option (open_channel_msg PK)) (env2 : fundee_env PK SIG TXID)
    (s : success_msg PK SIG TXID) (tr : List (event PK SIG TXID))
    (h : recv_channel_run ext st ours min_fr max_fr pm env2 = (.done s, tr)) :
    tr.getLast? = some (.to_status (.success s)) := by
  unfold recv_channel_run at h
  dsimp only at h
  repeat' split at h
  all_goals
    first
      | (injection h with h1 h2; injection h1; done)
      | (injection h with h1 h2; injection h1 with h3; subst h3; rw [← h2]
         exact List.getLast?_concat _)

/-- C1: in both paths, once the channel handle exists the engine verifies
the peer's signature (`check_commit_sig`, i.e. `check_tx_sig` under the
2-of-2 redeem script over our and their funding pubkeys) against the LOCAL
first commitment transaction: if it does not verify, the run ends
`PEER_READ_FAILED` and no success status is ever emitted; a success result
implies the signature verified. -/
theorem C1_sig_verification_gates_success
    {PK SIG TXID TX SCRIPT CHAN : Type}
    (ext : ext_funs PK SIG TXID TX SCRIPT CHAN) (st : init_state PK)
    (ours : points PK) (f push fr mmd : Nat)
    (a : accept_channel_msg PK) (txid : TXID) (txout : Nat) (chan : CHAN)
    (fs : funding_signed_msg SIG) (min_fr max_fr : Nat)
    (o : open_channel_msg PK) (fc : funding_created_msg SIG TXID)
    (chan2 : CHAN)
    (hf : f < 2 ^ 24) (hp : push ≤ u64mul 1000 f)
    (ha : a.temporary_channel_id = tmpid_ff)
    (hd : a.minimum_depth ≤ mmd)
    (hcfg : check_config_bounds f
      { st.localconf with channel_reserve_satoshis := set_reserve f }
      st.max_to_self_delay st.min_effective_htlc_capacity_msat
      (remoteconf_of_accept a) = none)
    (hch : ext.new_channel txid txout f push fr
      { st.localconf with channel_reserve_satoshis := set_reserve f }
      (remoteconf_of_accept a) side.LOCAL = some chan)
    (hfs : fs.channel_id = tmpid_ff)
    (ho1 : o.funding_satoshis < 2 ^ 24)
    (ho2 : o.push_msat ≤ u64mul o.funding_satoshis 1000)
    (ho3 : min_fr ≤ o.feerate_per_kw)
    (ho4 : o.feerate_per_kw ≤ max_fr)
    (hocfg : check_config_bounds o.funding_satoshis
      { st.localconf with
        channel_reserve_satoshis := set_reserve o.funding_satoshis }
      st.max_to_self_delay st.min_effective_htlc_capacity_msat
      (remoteconf_of_open o) = none)
    (hfc : fc.temporary_channel_id = o.temporary_channel_id)
    (hch2 : ext.new_channel fc.funding_txid fc.funding_output_index
      o.funding_satoshis o.push_msat o.feerate_per_kw
      { st.localconf with
        channel_reserve_satoshis := set_reserve o.funding_satoshis }
      (remoteconf_of_open o) side.REMOTE = some chan2) :
    (check_commit_sig ext ours.funding_pubkey a.funding_pubkey
        (ext.channel_tx chan st.next_per_commit_local side.LOCAL)
        fs.signature = false →
      (open_channel_run ext st ours f push fr mmd
        ⟨true, some (.accept a), some (txid, txout), true,
         some (.funding_signed fs)⟩).1 =
          .peer_failed .PEER_READ_FAILED .bad_signature ∧
      ∀ s, event.to_status (.success s) ∉
        (open_channel_run ext st ours f push fr mmd
          ⟨true, some (.accept a), some (txid, txout), true,
           some (.funding_signed fs)⟩).2) ∧
    (∀ s, (open_channel_run ext st ours f push fr mmd
        ⟨true, some (.accept a), some (txid, txout), true,
         some (.funding_signed fs)⟩).1 = .done s →
      check_commit_sig ext ours.funding_pubkey a.funding_pubkey
        (ext.channel_tx chan st.next_per_commit_local side.LOCAL)
        fs.signature = true) ∧
    (check_commit_sig ext ours.funding_pubkey o.funding_pubkey
        (ext.channel_tx chan2 st.next_per_commit_local side.LOCAL)
        fc.signature = false →
      (recv_channel_run ext st ours min_fr max_fr (some o)
        ⟨true, some (.funding_created fc), true⟩).1 =
          .peer_failed .PEER_READ_FAILED .fundee_bad_signature ∧
      ∀ s, event.to_status (.success s) ∉
        (recv_channel_run ext st ours min_fr max_fr (some o)
          ⟨true, some (.funding_created fc), true⟩).2) ∧
    (∀ s, (recv_channel_run ext st ours min_fr max_fr (some o)
        ⟨true, some (.funding_created fc), true⟩).1 = .done s →
      check_commit_sig ext ours.funding_pubkey o.funding_pubkey
        (ext.channel_tx chan2 st.next_per_commit_local side.LOCAL)
        fc.signature = true) := by
  have HF := open_channel_run_pinned ext st ours f push fr mmd a txid txout
    chan fs hf hp ha hd hcfg hch hfs
  have HE := recv_channel_run_pinned ext st ours min_fr max_fr o fc chan2
    ho1 ho2 ho3 ho4 hocfg hfc hch2
  refine ⟨HF.1, ?_, HE.1, ?_⟩
  · intro s hdone
    cases hx : check_commit_sig ext ours.funding_pubkey a.funding_pubkey
        (ext.channel_tx chan st.next_per_commit_local side.LOCAL)
        fs.signature with
    | true => rfl
    | false =>
      have h2 := (HF.1 hx).1
      rw [hdone] at h2
      exact absurd h2 (by simp)
  · intro s hdone
    cases hx : check_commit_sig ext ours.funding_pubkey o.funding_pubkey
        (ext.channel_tx chan2 st.next_per_commit_local side.LOCAL)
        fc.signature with
    | true => rfl
    | false =>
      have h2 := (HE.1 hx).1
      rw [hdone] at h2
      exact absurd h2 (by simp)

/-- C1 witness: with collaborators whose signature check always fails, the
sample funder run dies with `PEER_READ_FAILED` at the signature check. -/
theorem C1_sig_verification_gates_success_witness :
    (open_channel_run extF stS oursS 1000000 0 15000 10
      ⟨true, some (.accept acceptS), some (77, 0), true,
       some (.funding_signed fsS)⟩).1 =
      .peer_failed .PEER_READ_FAILED .bad_signature :=
  ((C1_sig_verification_gates_success extF stS oursS 1000000 0 15000 10
      acceptS 77 0 7 fsS 7500 30000 openS fcS 7
      (by decide) (by decide) (by decide) (by decide) (by decide) (by decide)
      (by decide) (by decide) (by decide) (by decide) (by decide) (by decide)
      (by decide) (by decide)).1 (by decide)).1

/-- C2 (code-bug evidence): the `accept_channel` the fundee sends echoes
the funder's temporary id, but its `first_per_commitment_point` field
carries `next_per_commit[REMOTE]` — the point just received in
`open_channel` (35) — not the fundee's own `next_per_commit[LOCAL]` (5),
contradicting the specified field content. -/
theorem C2_accept_channel_sends_remote_point :
    (recv_channel_run extT stS oursS 7500 30000 (some openS) eenvS).2.head? =
      some (.send_accept acceptSentS) ∧
    acceptSentS.temporary_channel_id = openS.temporary_channel_id ∧
    acceptSentS.first_per_commitment_point =
      openS.first_per_commitment_point ∧
    acceptSentS.first_per_commitment_point ≠ stS.next_per_commit_local := by
  decide

/-- C8: with every other step well-formed, an echoed channel id differing
from the temporary id fails the channel `PEER_READ_FAILED` at the
respective check (`accept_channel` and `funding_signed` for the funder,
`funding_created` for the fundee), while an exact echo lets the run
proceed to its success result. -/
theorem C8_temporary_id_must_be_echoed
    {PK SIG TXID TX SCRIPT CHAN : Type}
    (ext : ext_funs PK SIG TXID TX SCRIPT CHAN) (st : init_state PK)
    (ours : points PK) (f push fr mmd : Nat)
    (a : accept_channel_msg PK) (txid : TXID) (txout : Nat) (chan : CHAN)
    (fs : funding_signed_msg SIG) (min_fr max_fr : Nat)
    (o : open_channel_msg PK) (fc : funding_created_msg SIG TXID)
    (chan2 : CHAN)
    (hf : f < 2 ^ 24) (hp : push ≤ u64mul 1000 f)
    (hd : a.minimum_depth ≤ mmd)
    (hcfg : check_config_bounds f
      { st.localconf with channel_reserve_satoshis := set_reserve f }
      st.max_to_self_delay st.min_effective_htlc_capacity_msat
      (remoteconf_of_accept a) = none)
    (hch : ext.new_channel txid txout f push fr
      { st.localconf with channel_reserve_satoshis := set_reserve f }
      (remoteconf_of_accept a) side.LOCAL = some chan)
    (hsigF : check_commit_sig ext ours.funding_pubkey a.funding_pubkey
      (ext.channel_tx chan st.next_per_commit_local side.LOCAL)
      fs.signature = true)
    (ho1 : o.funding_satoshis < 2 ^ 24)
    (ho2 : o.push_msat ≤ u64mul o.funding_satoshis 1000)
    (ho3 : min_fr ≤ o.feerate_per_kw)
    (ho4 : o.feerate_per_kw ≤ max_fr)
    (hocfg : check_config_bounds o.funding_satoshis
      { st.localconf with
        channel_reserve_satoshis := set_reserve o.funding_satoshis }
      st.max_to_self_delay st.min_effective_htlc_capacity_msat
      (remoteconf_of_open o) = none)
    (hch2 : ext.new_channel fc.funding_txid fc.funding_output_index
      o.funding_satoshis o.push_msat o.feerate_per_kw
      { st.localconf with
        channel_reserve_satoshis := set_reserve o.funding_satoshis }
      (remoteconf_of_open o) side.REMOTE = some chan2)
    (hsigE : check_commit_sig ext ours.funding_pubkey o.funding_pubkey
      (ext.channel_tx chan2 st.next_per_commit_local side.LOCAL)
      fc.signature = true) :
    (a.temporary_channel_id ≠ tmpid_ff →
      (open_channel_run ext st ours f push fr mmd
        ⟨true, some (.accept a), some (txid, txout), true,
         some (.funding_signed fs)⟩).1 =
        .peer_failed .PEER_READ_FAILED .accept_ids_mismatch) ∧
    (a.temporary_channel_id = tmpid_ff → fs.channel_id ≠ tmpid_ff →
      (open_channel_run ext st ours f push fr mmd
        ⟨true, some (.accept a), some (txid, txout), true,
         some (.funding_signed fs)⟩).1 =
        .peer_failed .PEER_READ_FAILED .funding_signed_ids_mismatch) ∧
    (a.temporary_channel_id = tmpid_ff → fs.channel_id = tmpid_ff →
      ∃ s, (open_channel_run ext st ours f push fr mmd
        ⟨true, some (.accept a), some (txid, txout), true,
         some (.funding_signed fs)⟩).1 = .done s) ∧
    (fc.temporary_channel_id ≠ o.temporary_channel_id →
      (recv_channel_run ext st ours min_fr max_fr (some o)
        ⟨true, some (.funding_created fc), true⟩).1 =
        .peer_failed .PEER_READ_FAILED .funding_created_ids_mismatch) ∧
    (fc.temporary_channel_id = o.temporary_channel_id →
      ∃ s, (recv_channel_run ext st ours min_fr max_fr (some o)
        ⟨true, some (.funding_created fc), true⟩).1 = .done s) := by
  have e1 : ¬ (f ≥ 2 ^ 24) := by omega
  have e2 : ¬ (push > u64mul 1000 f) := by omega
  have e6 : ¬ (mmd < a.minimum_depth) := by omega
  have g1 : ¬ (o.funding_satoshis ≥ 2 ^ 24) := by omega
  have g2 : ¬ (o.push_msat > u64mul o.funding_satoshis 1000) := by omega
  have g3 : ¬ (o.feerate_per_kw < min_fr) := by omega
  have g4 : ¬ (max_fr < o.feerate_per_kw) := by omega
  refine ⟨?_, ?_, ?_, ?_, ?_⟩
  · intro hmis
    have e5 : tmpid_ff ≠ a.temporary_channel_id := Ne.symm hmis
    simp only [open_channel_run, e1, e2, if_false, ite_false, ite_true,
      not_true, not_false_iff]
    rw [if_pos e5]
  · intro haid hmis
    have e12 : tmpid_ff ≠ fs.channel_id := Ne.symm hmis
    simp only [open_channel_run, e1, e2, e6, haid, hcfg, hch, if_false,
      ite_false, ite_true, not_true, not_false_iff]
    rw [if_neg (fun h => h rfl), if_pos e12]
  · intro haid hfsid
    exact ⟨_, (open_channel_run_pinned ext st ours f push fr mmd a txid
      txout chan fs hf hp haid hd hcfg hch hfsid).2 hsigF⟩
  · intro hmis
    have e5 : o.temporary_channel_id ≠ fc.temporary_channel_id :=
      Ne.symm hmis
    simp only [recv_channel_run, g1, g2, g3, g4, hocfg, if_false,
      ite_false, ite_true, not_true, not_false_iff]
    rw [if_pos e5]
  · intro hfcid
    exact ⟨_, (recv_channel_run_pinned ext st ours min_fr max_fr o fc chan2
      ho1 ho2 ho3 ho4 hocfg hfcid hch2).2 hsigE⟩

/-- C8 witness: an `accept_channel` echoing 170…170 instead of the
funder's 0xFF…FF temporary id makes the sample funder run die
`PEER_READ_FAILED` at the id comparison. -/
theorem C8_temporary_id_must_be_echoed_witness :
    (open_channel_run extT stS oursS 1000000 0 15000 10
      ⟨true, some (.accept acceptBad), some (77, 0), true,
       some (.funding_signed fsS)⟩).1 =
      .peer_failed .PEER_READ_FAILED .accept_ids_mismatch :=
  (C8_temporary_id_must_be_echoed extT stS oursS 1000000 0 15000 10
    acceptBad 77 0 7 fsS 7500 30000 openS fcS 7
    (by decide) (by decide) (by decide) (by decide) (by decide) (by decide)
    (by decide) (by decide) (by decide) (by decide) (by decide) (by decide)
    (by decide)).1 (by decide)

/-- C9: after a path run ends in its success result (whose emission is the
last event of the run's trace), the engine first hands the peer fd back,
then performs one blocking read of the control channel, and exits 0
exactly when that read yields a message parsing as `exit_req`; an
unreadable channel or any other message is fatal `BAD_COMMAND`. -/
theorem C9_fd_handback_then_exit_req
    {PK SIG TXID TX SCRIPT CHAN : Type}
    (ext : ext_funs PK SIG TXID TX SCRIPT CHAN) (st : init_state PK)
    (ours : points PK) (f push fr mmd : Nat) (env : funder_env PK SIG TXID)
    (min_fr max_fr : Nat) (pm : Option (open_channel_msg PK))
    (env2 : fundee_env PK SIG TXID) (ctrl : Option control_in)
    (s s2 : success_msg PK SIG TXID) (tr tr2 : List (event PK SIG TXID))
    (hrunF : open_channel_run ext st ours f push fr mmd env = (.done s, tr))
    (hrunE : recv_channel_run ext st ours min_fr max_fr pm env2 =
      (.done s2, tr2)) :
    tr.getLast? = some (.to_status (.success s)) ∧
    tr2.getLast? = some (.to_status (.success s2)) ∧
    (engine_after (open_channel_run ext st ours f push fr mmd env) ctrl).2 =
      tr ++ [event.fdpass_peer, event.recv_req] ∧
    (engine_after (recv_channel_run ext st ours min_fr max_fr pm env2)
      ctrl).2 = tr2 ++ [event.fdpass_peer, event.recv_req] ∧
    ((engine_after (open_channel_run ext st ours f push fr mmd env)
        ctrl).1 = .exit_zero ↔ ctrl = some .exit_req) ∧
    ((engine_after (recv_channel_run ext st ours min_fr max_fr pm env2)
        ctrl).1 = .exit_zero ↔ ctrl = some .exit_req) ∧
    (ctrl ≠ some .exit_req →
      (engine_after (open_channel_run ext st ours f push fr mmd env)
        ctrl).1 = .fatal .BAD_COMMAND ∧
      (engine_after (recv_channel_run ext st ours min_fr max_fr pm env2)
        ctrl).1 = .fatal .BAD_COMMAND) := by
  refine ⟨open_channel_run_done_trace ext st ours f push fr mmd env s tr
      hrunF,
    recv_channel_run_done_trace ext st ours min_fr max_fr pm env2 s2 tr2
      hrunE, ?_, ?_, ?_, ?_, ?_⟩
  · rw [hrunF]
    cases ctrl with
    | none => rfl
    | some c => cases c <;> rfl
  · rw [hrunE]
    cases ctrl with
    | none => rfl
    | some c => cases c <;> rfl
  · rw [hrunF]
    cases ctrl with
    | none => simp [engine_after]
    | some c => cases c <;> simp [engine_after]
  · rw [hrunE]
    cases ctrl with
    | none => simp [engine_after]
    | some c => cases c <;> simp [engine_after]
  · intro hne
    rw [hrunF, hrunE]
    cases ctrl with
    | none => exact ⟨rfl, rfl⟩
    | some c =>
      cases c with
      | exit_req => exact absurd rfl hne
      | other => exact ⟨rfl, rfl⟩

/-- C9 witness: the sample funder run succeeds, and the engine exits 0 on
an `exit_req` read after the fd handback. -/
theorem C9_fd_handback_then_exit_req_witness :
    (engine_after (open_channel_run extT stS oursS 1000000 0 15000 10 fenvS)
      (some .exit_req)).1 = .exit_zero :=
  (C9_fd_handback_then_exit_req extT stS oursS 1000000 0 15000 10 fenvS
    7500 30000 (some openS) eenvS (some .exit_req) succFS succES trFS trES
    (by decide) (by decide)).2.2.2.2.1.mpr rfl

end Opening
